import Mathlib

/-!
Verification of the `gazebo` core: the lifetime-erased dynamic-typing
facility (`src/gazebo/src/any.rs`) and the zero-cost structural coercion
facility (`src/gazebo/src/coerce.rs`).

The Rust code is shallowly embedded:

* `TypeId` is the process-wide type identity (Rust's `std::any::TypeId`);
  distinct `'static` types receive distinct identities, which we model by
  assigning distinct codes to distinct declared types.
* A trait implementation becomes an explicit dictionary (a structure of the
  trait's methods); `dyn AnyLifetime` becomes a pair of a dictionary (the
  vtable installed by the unsizing coercion) and the wrapped data.
* The data behind a reference is modelled by a universal value type `Value`;
  the unsafe pointer reinterpretation in `downcast_ref`/`downcast_mut`
  returns the same data, now viewed at the caller's chosen type, exactly as
  the cast leaves the bits in place.
* Rust panics (`panic!`, `unreachable!`) become the `Except.error` case.
-/

namespace Gazebo

/-- Rust `std::any::TypeId`: an opaque process-wide identity with equality. -/
structure TypeId where
  code : Nat
deriving DecidableEq, Repr

/-! ### any.rs: `AnyResult` (single-slot "first write wins" result box)

`AnyResult` stores `want: TypeId`, `want_name: &'static str` and
`result: Option<Box<dyn Any + Send>>`.  A `Box<dyn Any>` is a value together
with the runtime `TypeId` its vtable reports, so the slot is modelled as
`Option (TypeId × Value)`.  The slot field is named `resultSlot` here because
Lean does not allow a field and a method of a structure to share the name
`result`. -/
structure AnyResult (Value : Type) where
  want : TypeId
  want_name : String
  resultSlot : Option (TypeId × Value)
deriving DecidableEq

/-- `AnyResult::new::<T>()`: records `T`'s `TypeId` and type name, empty slot. -/
def AnyResult.new (Value : Type) (T : TypeId) (Tname : String) : AnyResult Value :=
  { want := T, want_name := Tname, resultSlot := none }

/-- The panic message `result`/`result_ref` build when `new` and `result` are
used at different types. -/
def mismatchMessage (newName resultName : String) : String :=
  "AnyResult new/result used at different types, new=" ++ newName
    ++ ", result=" ++ resultName

/-- `AnyResult::result::<T>(self)`: panics (`Except.error`) when `want`
differs from `T`'s `TypeId`; otherwise returns the slot's value, downcasting
the stored box (the box's runtime id must match `T`; the code marks the other
branch `unreachable!()`). -/
def AnyResult.result (r : AnyResult Value) (T : TypeId) (Tname : String) :
    Except String (Option Value) :=
  if r.want ≠ T then
    .error (mismatchMessage r.want_name Tname)
  else
    match r.resultSlot with
    | none => .ok none
    | some (tid, v) =>
      if tid = T then .ok (some v)
      else .error "internal error: entered unreachable code"

/-- `AnyResult::result_ref::<T>(&self)`: same checks as `result`, returning a
reference to the stored value (a reference is modelled by the value itself). -/
def AnyResult.result_ref (r : AnyResult Value) (T : TypeId) (Tname : String) :
    Except String (Option Value) :=
  if r.want ≠ T then
    .error (mismatchMessage r.want_name Tname)
  else
    match r.resultSlot with
    | none => .ok none
    | some (tid, v) =>
      if tid = T then .ok (some v)
      else .error "internal error: entered unreachable code"

/-- `AnyResult::add::<T, F>(&mut self, f)`, instrumented: the returned `Bool`
records whether the `FnOnce` closure `f` was invoked.  The source runs `f`
only when `T`'s `TypeId` equals `want` and the slot is still empty, in which
case it stores `Box::new(f())` (a box whose runtime id is `T`). -/
def AnyResult.addCore (r : AnyResult Value) (T : TypeId) (f : Unit → Value) :
    AnyResult Value × Bool :=
  if T = r.want then
    if r.resultSlot.isNone then
      ({ r with resultSlot := some (T, f ()) }, true)
    else (r, false)
  else (r, false)

/-- `AnyResult::add`, forgetting the instrumentation. -/
def AnyResult.add (r : AnyResult Value) (T : TypeId) (f : Unit → Value) :
    AnyResult Value :=
  (r.addCore T f).1

/-- A sequence of `add` calls in program order. -/
def runAdds (r : AnyResult Value) (calls : List (TypeId × (Unit → Value))) :
    AnyResult Value :=
  calls.foldl (fun s c => s.add c.1 c.2) r

/-! ### any.rs: `ProvidesStaticType`, `AnyLifetime`, `dyn AnyLifetime` -/

/-- `ProvidesStaticType`: the implementing type names an associated
`StaticType : 'static`, the same type with every lifetime replaced by
`'static`.  All the blanket `AnyLifetime` implementation uses of it is
`TypeId::of::<Self::StaticType>()`, so the dictionary records that identity. -/
structure ProvidesStaticType where
  staticTypeId : TypeId

/-- The method dictionary (vtable) of an `AnyLifetime<'a>` implementation on a
concrete type whose data is represented inside `Value`: the no-instance query
`static_type_id()` and the instance-bound query `static_type_of(&self)`. -/
structure AnyLifetimeVtable (Value : Type) where
  static_type_id : TypeId
  static_type_of : Value → TypeId

/-- The blanket implementation
`unsafe impl<'a, T: ProvidesStaticType + 'a + ?Sized> AnyLifetime<'a> for T`:
both methods return `TypeId::of::<T::StaticType>()`; `static_type_of` ignores
`self`. -/
def anyLifetimeBlanket (Value : Type) (p : ProvidesStaticType) :
    AnyLifetimeVtable Value :=
  { static_type_id := p.staticTypeId
    static_type_of := fun _ => p.staticTypeId }

/-- A `&dyn AnyLifetime<'a>` dynamic reference: the unsizing coercion from a
concrete `&T` keeps the data pointer and attaches `T`'s vtable. -/
structure DynAnyLifetime (Value : Type) where
  vtable : AnyLifetimeVtable Value
  data : Value

/-- The unsizing coercion `&T -> &dyn AnyLifetime<'a>`. -/
def upcast (vt : AnyLifetimeVtable Value) (v : Value) : DynAnyLifetime Value :=
  { vtable := vt, data := v }

/-- `<dyn AnyLifetime<'a>>::is::<T>()`:
`self.static_type_of() == T::static_type_id()`.  The dynamic call
`self.static_type_of()` goes through the stored vtable on the stored data. -/
def DynAnyLifetime.is (r : DynAnyLifetime Value) (T : AnyLifetimeVtable Value) :
    Bool :=
  decide (r.vtable.static_type_of r.data = T.static_type_id)

/-- `<dyn AnyLifetime<'a>>::downcast_ref::<T>()`: when `is::<T>()` holds,
reinterprets the reference as `&T` (the cast leaves the data in place);
otherwise `None`. -/
def DynAnyLifetime.downcast_ref (r : DynAnyLifetime Value)
    (T : AnyLifetimeVtable Value) : Option Value :=
  if r.is T then some r.data else none

/-- `<dyn AnyLifetime<'a>>::downcast_mut::<T>()`: same check, mutable
reinterpretation. -/
def DynAnyLifetime.downcast_mut (r : DynAnyLifetime Value)
    (T : AnyLifetimeVtable Value) : Option Value :=
  if r.is T then some r.data else none

/-! Concrete witnessed types for the spec's scenario 7: two structurally
similar but distinct declared structs, as in the `test_can_convert` test

```
#[derive(AnyLifetime)] struct Value<'a>(&'a str);
#[derive(AnyLifetime)] struct Value2<'a>(&'a str);
```

Both hold one borrowed-string field, so their data lives in `String`; their
`StaticType`s (`Value<'static>` and `Value2<'static>`) are distinct declared
types, hence have distinct `TypeId`s. -/

/-- `TypeId::of::<Value<'static>>()`. -/
def tidValueStatic : TypeId := ⟨100⟩

/-- `TypeId::of::<Value2<'static>>()`. -/
def tidValue2Static : TypeId := ⟨101⟩

/-- The derived `ProvidesStaticType` for `Value<'a>`. -/
def valueProvides : ProvidesStaticType := ⟨tidValueStatic⟩

/-- The derived `ProvidesStaticType` for `Value2<'a>`. -/
def value2Provides : ProvidesStaticType := ⟨tidValue2Static⟩

/-- The blanket `AnyLifetime` vtable of `Value<'a>`. -/
def valueVt : AnyLifetimeVtable String := anyLifetimeBlanket String valueProvides

/-- The blanket `AnyLifetime` vtable of `Value2<'a>`. -/
def value2Vt : AnyLifetimeVtable String := anyLifetimeBlanket String value2Provides

/-- `TypeId::of::<String>()`. -/
def tidString : TypeId := ⟨102⟩

/-- `TypeId::of::<i32>()`. -/
def tidI32 : TypeId := ⟨103⟩

/-- `TypeId::of::<&'static str>()`. -/
def tidRefStr : TypeId := ⟨104⟩

/-! ### coerce.rs: `Coerce`, `CoerceKey`, `coerce`, `coerce_ref`

The marker traits are embedded as inductive families over a syntax `Ty` of
the Rust types appearing in this development; each constructor is one of the
`unsafe impl` declarations of `coerce.rs` (plus the `repr(transparent)`
newtype `Wrapper(String)` with `unsafe impl Coerce<String> for Wrapper {}`
from the crate's documented example).  Because Rust's coherence admits no
other implementation for those container shapes inside the crate, the
inductive's constructors are exactly the predeclared proofs. -/

/-- Syntax of the Rust types in play: `String`, `bool`, `i32`, the newtype
`Wrapper(String)`, and the container shapes of coerce.rs. -/
inductive Ty : Type where
  | string : Ty
  | bool : Ty
  | i32 : Ty
  | wrapper : Ty
  | vec : Ty → Ty
  | box : Ty → Ty
  | hashSet : Ty → Ty
  | hashMap : Ty → Ty → Ty
  | pair : Ty → Ty → Ty
deriving DecidableEq, Repr

/-- Values of each Rust type: `Vec`/`HashSet` as element lists, `HashMap` as
a list of key-value entries, `Box` transparent to its content. -/
def Val : Ty → Type
  | .string => String
  | .bool => Bool
  | .i32 => Int
  | .wrapper => String
  | .vec t => List (Val t)
  | .box t => Val t
  | .hashSet t => List (Val t)
  | .hashMap k v => List (Val k × Val v)
  | .pair a b => Val a × Val b

/-- The `unsafe impl ... CoerceKey<...>` declarations of coerce.rs:
`Vec`, `Box` and pairs under key-preserving element proofs, and
`CoerceKey<String> for String`. -/
inductive CoerceKey : Ty → Ty → Type where
  | vec : CoerceKey f t → CoerceKey (.vec f) (.vec t)
  | box : CoerceKey f t → CoerceKey (.box f) (.box t)
  | pair : CoerceKey f₁ t₁ → CoerceKey f₂ t₂ →
      CoerceKey (.pair f₁ f₂) (.pair t₁ t₂)
  | string : CoerceKey .string .string

/-- The `unsafe impl ... Coerce<...>` declarations of coerce.rs: `Vec` and
`Box` under plain element proofs, `HashSet` under a key-preserving element
proof, `HashMap` under a key-preserving key proof and a plain value proof,
pairs componentwise, `Coerce<String> for String`, and the documented
`Coerce<String> for Wrapper`. -/
inductive Coerce : Ty → Ty → Type where
  | vec : Coerce f t → Coerce (.vec f) (.vec t)
  | box : Coerce f t → Coerce (.box f) (.box t)
  | hashSet : CoerceKey f t → Coerce (.hashSet f) (.hashSet t)
  | hashMap : CoerceKey fk tk → Coerce fv tv →
      Coerce (.hashMap fk fv) (.hashMap tk tv)
  | pair : Coerce f₁ t₁ → Coerce f₂ t₂ → Coerce (.pair f₁ f₂) (.pair t₁ t₂)
  | string : Coerce .string .string
  | wrapper : Coerce .wrapper .string

/-- The supertrait obligation `CoerceKey<To>: Coerce<To>`: every declared
key-preserving proof has a matching plain proof. -/
def CoerceKey.toCoerce : CoerceKey f t → Coerce f t
  | .vec h => .vec h.toCoerce
  | .box h => .box h.toCoerce
  | .pair h₁ h₂ => .pair h₁.toCoerce h₂.toCoerce
  | .string => .string

/-- Modelled from the spec: `transmute_unchecked` (module `crate::cast`, not
among the repository's staged source files) is "a raw reinterpret-cast
primitive" that "reinterprets the owned value's bit pattern as `To`" in
constant time with zero copying.  On the layout-compatible pairs related by a
key-preserving proof this leaves every payload in place: a `Vec`'s buffer is
reinterpreted element by element in place, a `Box`'s pointee in place, a
pair componentwise, and `String` unchanged. -/
def coerceKeyFun : CoerceKey f t → Val f → Val t
  | .vec h, xs => xs.map (coerceKeyFun h)
  | @CoerceKey.box f t h, x => (coerceKeyFun h x : Val t)
  | .pair h₁ h₂, x => (coerceKeyFun h₁ x.1, coerceKeyFun h₂ x.2)
  | .string, s => s

/-- Modelled from the spec: `coerce(value: From) -> To` for `From: Coerce<To>`
is `transmute_unchecked(x)`, the bit-pattern reinterpretation of the owned
value (see `coerceKeyFun`); containers are reinterpreted in place, so their
contents are reinterpreted pointwise and `Wrapper(String)` yields its
underlying `String` unchanged. -/
def coerce : Coerce f t → Val f → Val t
  | .vec h, xs => xs.map (coerce h)
  | @Coerce.box f t h, x => (coerce h x : Val t)
  | .hashSet h, xs => xs.map (coerceKeyFun h)
  | .hashMap hk hv, xs => xs.map fun kv => (coerceKeyFun hk kv.1, coerce hv kv.2)
  | .pair h₁ h₂, x => (coerce h₁ x.1, coerce h₂ x.2)
  | .string, s => s
  | .wrapper, s => s

/-- Modelled from the spec: `coerce_ref(value: &From) -> &To` is `cast::ptr`
(module `crate::cast`, not among the staged sources), the same
reinterpretation applied through a reference; a reference is modelled by the
value it points at. -/
def coerce_ref (h : Coerce f t) (x : Val f) : Val t := coerce h x

/-! ### Helper lemmas -/

/-- `add` in closed form: the slot is written exactly when the call's type
matches `want` and the slot is still empty; in every other case the state is
returned untouched and the closure is not run. -/
theorem addCore_eq (r : AnyResult Value) (T : TypeId) (f : Unit → Value) :
    r.addCore T f =
      if T = r.want ∧ r.resultSlot.isNone then
        ({ r with resultSlot := some (T, f ()) }, true)
      else (r, false) := by
  unfold AnyResult.addCore
  by_cases h1 : T = r.want <;> by_cases h2 : r.resultSlot.isNone <;>
    simp [h1, h2]

theorem runAdds_nil (r : AnyResult Value) : runAdds r [] = r := rfl

theorem runAdds_cons (r : AnyResult Value) (c : TypeId × (Unit → Value))
    (cs : List (TypeId × (Unit → Value))) :
    runAdds r (c :: cs) = runAdds (r.add c.1 c.2) cs := rfl

/-- Once the slot is filled, any further sequence of `add` calls is a no-op. -/
theorem runAdds_of_some (calls : List (TypeId × (Unit → Value))) :
    ∀ r : AnyResult Value, r.resultSlot ≠ none → runAdds r calls = r := by
  induction calls with
  | nil => intro r _; rfl
  | cons c cs ih =>
    intro r h
    have hadd : r.add c.1 c.2 = r := by
      simp [AnyResult.add, addCore_eq, h]
    rw [runAdds_cons, hadd, ih r h]

/-- Running a sequence of `add` calls from an empty slot preserves `want` and
`want_name` and leaves in the slot the first call (in program order) whose
type matches `want`, boxed with its type id — or nothing when none matches. -/
theorem runAdds_slot (calls : List (TypeId × (Unit → Value))) :
    ∀ r : AnyResult Value, r.resultSlot = none →
      (runAdds r calls).want = r.want
      ∧ (runAdds r calls).want_name = r.want_name
      ∧ (runAdds r calls).resultSlot
          = (calls.find? fun c => decide (c.1 = r.want)).map fun c => (c.1, c.2 ()) := by
  induction calls with
  | nil => intro r h; exact ⟨rfl, rfl, by simp [runAdds_nil, h]⟩
  | cons c cs ih =>
    intro r h
    by_cases hc : c.1 = r.want
    · have hadd : r.add c.1 c.2 = { r with resultSlot := some (c.1, c.2 ()) } := by
        simp [AnyResult.add, addCore_eq, hc, h]
      have hrest : runAdds { r with resultSlot := some (c.1, c.2 ()) } cs
          = { r with resultSlot := some (c.1, c.2 ()) } :=
        runAdds_of_some cs _ (by simp)
      rw [runAdds_cons, hadd, hrest]
      refine ⟨rfl, rfl, ?_⟩
      rw [List.find?_cons_of_pos _ (by simp [hc])]
      simp [hc]
    · have hadd : r.add c.1 c.2 = r := by
        simp [AnyResult.add, addCore_eq, hc]
      rw [runAdds_cons, hadd]
      obtain ⟨h1, h2, h3⟩ := ih r h
      refine ⟨h1, h2, ?_⟩
      rw [h3, List.find?_cons_of_neg _ (by simp [hc])]

/-! ### The claims -/

/-- C1: for every dynamic reference `r` and witnessed type `T`,
`downcast_ref::<T>()` returns `Some` of the underlying reference
reinterpreted as `T` iff `r.is::<T>()` is true and `None` otherwise, and the
same holds for `downcast_mut`; in particular, for the two structurally
similar but distinct declared types `Value<'a>` and `Value2<'a>` (distinct
static identities), downcasting a `Value2("test")` to `Value` yields `None`,
never a successful downcast. -/
theorem C1_downcast_iff_is :
    (∀ (Value : Type) (r : DynAnyLifetime Value) (T : AnyLifetimeVtable Value),
      (r.downcast_ref T = some r.data ↔ r.is T = true)
      ∧ (r.downcast_ref T = none ↔ r.is T = false)
      ∧ (r.downcast_mut T = some r.data ↔ r.is T = true)
      ∧ (r.downcast_mut T = none ↔ r.is T = false))
    ∧ (upcast value2Vt "test").downcast_ref valueVt = none
    ∧ (upcast value2Vt "test").downcast_mut valueVt = none := by
  refine ⟨fun Value r T => ?_, by decide, by decide⟩
  cases h : r.is T <;>
    simp [DynAnyLifetime.downcast_ref, DynAnyLifetime.downcast_mut, h]

/-- C2: for a dynamic reference built (by the unsizing coercion) over the
blanket `AnyLifetime` implementation of a witnessed type `V`, `is::<T>()`
returns true iff the stored runtime identity — `static_type_of` of the
wrapped value, i.e. `V`'s lifetime-erased `TypeId` — equals
`T::static_type_id()`, and false otherwise; the result does not depend on the
wrapped value (and the embedding of `is` is a pure function returning `Bool`,
so the call has no side effects and cannot modify the referenced value). -/
theorem C2_is_iff_identity :
    ∀ (Value : Type) (sV sT : TypeId) (v w : Value),
      ((upcast (anyLifetimeBlanket Value ⟨sV⟩) v).is (anyLifetimeBlanket Value ⟨sT⟩)
          = true ↔ sV = sT)
      ∧ ((upcast (anyLifetimeBlanket Value ⟨sV⟩) v).is (anyLifetimeBlanket Value ⟨sT⟩)
          = false ↔ sV ≠ sT)
      ∧ (upcast (anyLifetimeBlanket Value ⟨sV⟩) v).is (anyLifetimeBlanket Value ⟨sT⟩)
          = (upcast (anyLifetimeBlanket Value ⟨sV⟩) w).is (anyLifetimeBlanket Value ⟨sT⟩) := by
  intro Value sV sT v w
  simp [DynAnyLifetime.is, upcast, anyLifetimeBlanket]

/-- C3: for every type `T` receiving the blanket `AnyLifetime` implementation
from `ProvidesStaticType`, the no-instance query and the instance-bound query
agree: `T::static_type_id() == t.static_type_of()` for every value `t`, both
equal `TypeId::of::<T::StaticType>()`, and `static_type_of` does not depend
on the instance in any way. -/
theorem C3_static_identity_consistent :
    ∀ (Value : Type) (p : ProvidesStaticType) (t t' : Value),
      (anyLifetimeBlanket Value p).static_type_id = p.staticTypeId
      ∧ (anyLifetimeBlanket Value p).static_type_of t = p.staticTypeId
      ∧ (anyLifetimeBlanket Value p).static_type_id
          = (anyLifetimeBlanket Value p).static_type_of t
      ∧ (anyLifetimeBlanket Value p).static_type_of t
          = (anyLifetimeBlanket Value p).static_type_of t' :=
  fun _ _ _ _ => ⟨rfl, rfl, rfl, rfl⟩

/-- C4: first write wins.  For an `AnyResult` created with `new::<T>()` and
any sequence of `add` calls, the slot holds exactly the value produced by the
first add (in program order) whose type parameter matches `T`, and
`result::<T>()` returns `Some` of that value — `None` when no add's type
matches; later matching adds never overwrite the stored value.  The last
conjunct is the doc-test scenario: adds at `i32`, then twice at `String`,
queried at `String`, yield the first `String` value. -/
theorem C4_first_write_wins :
    (∀ (Value : Type) (T : TypeId) (Tname : String)
      (calls : List (TypeId × (Unit → Value))),
      (runAdds (AnyResult.new Value T Tname) calls).resultSlot
        = (calls.find? fun c => decide (c.1 = T)).map (fun c => (c.1, c.2 ()))
      ∧ (runAdds (AnyResult.new Value T Tname) calls).result T Tname
        = .ok ((calls.find? fun c => decide (c.1 = T)).map fun c => c.2 ()))
    ∧ (runAdds (AnyResult.new String tidString "String")
        [(tidI32, fun _ => "42"), (tidString, fun _ => "Hello"),
          (tidString, fun _ => "Goodbye")]).result tidString "String"
        = .ok (some "Hello") := by
  refine ⟨fun Value T Tname calls => ?_, rfl⟩
  obtain ⟨hw, _, hs⟩ := runAdds_slot calls (AnyResult.new Value T Tname) rfl
  have hwant : (AnyResult.new Value T Tname).want = T := rfl
  rw [hwant] at hw hs
  refine ⟨hs, ?_⟩
  cases hf : calls.find? fun c => decide (c.1 = T) with
  | none =>
    rw [hf] at hs
    have hs' : (runAdds (AnyResult.new Value T Tname) calls).resultSlot = none := by
      simpa using hs
    simp [AnyResult.result, hw, hs']
  | some c =>
    have hc : c.1 = T := by simpa using List.find?_some hf
    rw [hf] at hs
    have hs' : (runAdds (AnyResult.new Value T Tname) calls).resultSlot
        = some (c.1, c.2 ()) := by simpa using hs
    simp [AnyResult.result, hw, hs', hc]

/-- C5: calling `AnyResult::result::<U>()` with a type parameter `U` different
from the type recorded by `new::<T>()` abruptly terminates the program with
the new/result mismatch panic; it never returns a value or `None` in that
case. -/
theorem C5_result_mismatch_panics :
    ∀ (Value : Type) (r : AnyResult Value) (U : TypeId) (Uname : String),
      r.want ≠ U →
      r.result U Uname = .error (mismatchMessage r.want_name Uname)
      ∧ ∀ o : Option Value, r.result U Uname ≠ .ok o := by
  intro Value r U Uname h
  have he : r.result U Uname = .error (mismatchMessage r.want_name Uname) := by
    unfold AnyResult.result
    simp [h]
  exact ⟨he, fun o => by simp [he]⟩

/-- C5 witness: `new::<String>()` queried at `i32` panics with the mismatch
message. -/
theorem C5_result_mismatch_panics_witness :
    (AnyResult.new String tidString "alloc::string::String").result tidI32 "i32"
      = .error (mismatchMessage "alloc::string::String" "i32")
    ∧ ∀ o : Option String,
      (AnyResult.new String tidString "alloc::string::String").result tidI32 "i32"
        ≠ .ok o :=
  C5_result_mismatch_panics String
    (AnyResult.new String tidString "alloc::string::String") tidI32 "i32"
    (by decide)

/-- C6 counterexample: the claim says a query at a type other than the
declared one "is rejected at compile time", but the mismatched query is a
well-defined runtime computation: `new::<String>()` queried at `i32`
evaluates — at run time — to the documented mismatch panic (the crate's own
test `test_different_types` exercises exactly this runtime panic), so the
rejection is not a compile-time one. -/
theorem C6_runtime_panic_counterexample :
    (AnyResult.new String tidString "alloc::string::String").result tidI32 "i32"
      = Except.error (mismatchMessage "alloc::string::String" "i32") := rfl

/-- C6 amended: querying at the declared type returns the stored matching
value (for `result` and `result_ref` alike), while querying at any other type
panics at runtime with the new/result mismatch message — a runtime abrupt
termination, not a compile-time rejection. -/
theorem C6_result_amended :
    ∀ (Value : Type) (r : AnyResult Value) (v : Value) (U : TypeId) (Uname : String),
      (r.resultSlot = some (r.want, v) →
        r.result r.want r.want_name = .ok (some v)
        ∧ r.result_ref r.want r.want_name = .ok (some v))
      ∧ (U ≠ r.want →
        r.result U Uname = .error (mismatchMessage r.want_name Uname)
        ∧ r.result_ref U Uname = .error (mismatchMessage r.want_name Uname)) := by
  intro Value r v U Uname
  constructor
  · intro hs
    unfold AnyResult.result AnyResult.result_ref
    simp [hs]
  · intro hU
    have h : r.want ≠ U := fun e => hU e.symm
    unfold AnyResult.result AnyResult.result_ref
    simp [h]

/-- C7: whenever `From: Coerce<To>` holds, `Vec<From>: Coerce<Vec<To>>` also
holds, and `coerce` applied to a vector yields a vector with exactly the same
element count, element `i` of the result being the coercion of element `i` of
the input, for every input vector. -/
theorem C7_vec_coerce_preserves :
    ∀ (f t : Ty) (h : Coerce f t) (xs : List (Val f)),
      Nonempty (Coerce (.vec f) (.vec t))
      ∧ List.length (coerce (Coerce.vec h) xs) = xs.length
      ∧ ∀ i : Nat,
        List.get? (coerce (Coerce.vec h) xs) i = (List.get? xs i).map (coerce h) := by
  intro f t h xs
  exact ⟨⟨.vec h⟩, by simp [coerce], fun i => by simp [coerce, List.get?_map]⟩

/-- C8: a `HashSet<From>` coerces to `HashSet<To>` exactly when the refined
key-preserving proof `CoerceKey` holds for the element type, and a
`HashMap<FromK, FromV>` coerces to `HashMap<ToK, ToV>` exactly when
`CoerceKey` holds for the key pair and the plain `Coerce` proof for the value
pair. -/
theorem C8_key_preservation :
    ∀ f t fk fv tk tv : Ty,
      (Nonempty (Coerce (.hashSet f) (.hashSet t)) ↔ Nonempty (CoerceKey f t))
      ∧ (Nonempty (Coerce (.hashMap fk fv) (.hashMap tk tv))
          ↔ Nonempty (CoerceKey fk tk) ∧ Nonempty (Coerce fv tv)) := by
  intro f t fk fv tk tv
  constructor
  · constructor
    · rintro ⟨h⟩
      cases h with
      | hashSet hk => exact ⟨hk⟩
    · rintro ⟨hk⟩
      exact ⟨.hashSet hk⟩
  · constructor
    · rintro ⟨h⟩
      cases h with
      | hashMap hk hv => exact ⟨⟨hk⟩, ⟨hv⟩⟩
    · rintro ⟨⟨hk⟩, ⟨hv⟩⟩
      exact ⟨.hashMap hk hv⟩

/-- C9 counterexample: no reflexive coercion proof is predeclared for the
primitive types — there is no `Coerce<bool> for bool`, no `Coerce<i32> for
i32` and no `CoerceKey<bool> for bool` among the declared proofs, so the
claimed registry covering "the integer, floating-point and boolean
primitives" does not exist. -/
theorem C9_no_primitive_reflexive_counterexample :
    (Nonempty (Coerce .bool .bool) → False)
    ∧ (Nonempty (Coerce .i32 .i32) → False)
    ∧ (Nonempty (CoerceKey .bool .bool) → False) := by
  refine ⟨?_, ?_, ?_⟩ <;> rintro ⟨h⟩ <;> cases h

/-- C9 amended: the predeclared registry of reflexive coercion proofs covers
only the common text type `String` — both `Coerce<String> for String` and
`CoerceKey<String> for String` — and for it `coerce::<String, String>` (and
`coerce_ref`) is available and is the identity; no reflexive proofs are
predeclared for the primitive types. -/
theorem C9_reflexive_registry_amended :
    Nonempty (Coerce .string .string)
    ∧ Nonempty (CoerceKey .string .string)
    ∧ ∀ s : Val .string, coerce Coerce.string s = s ∧ coerce_ref Coerce.string s = s :=
  ⟨⟨.string⟩, ⟨.string⟩, fun _ => ⟨rfl, rfl⟩⟩

/-- C10: `AnyResult::add` is lazy and leaves the state unchanged on
non-matching or redundant calls: when `U`'s `TypeId` differs from the one
recorded at creation, or a value is already stored, the closure is never
invoked (the instrumentation flag is `false`) and every field of the
`AnyResult` is exactly as before the call. -/
theorem C10_add_frame :
    ∀ (Value : Type) (r : AnyResult Value) (U : TypeId) (f : Unit → Value),
      U ≠ r.want ∨ r.resultSlot ≠ none →
      r.addCore U f = (r, false) := by
  intro Value r U f h
  rw [addCore_eq]
  rcases h with h | h <;> simp [h]

/-- C10 witness: a non-matching `add` on a fresh `String` slot runs nothing
and changes nothing. -/
theorem C10_add_frame_witness :
    (AnyResult.new String tidString "alloc::string::String").addCore tidI32
        (fun _ => "skipped")
      = (AnyResult.new String tidString "alloc::string::String", false) :=
  C10_add_frame String (AnyResult.new String tidString "alloc::string::String")
    tidI32 (fun _ => "skipped") (Or.inl (by decide))

end Gazebo
